import Mathlib

/-!
Verification development for the Study Buddy RAG dashboard frontends.

The repository contains three near-duplicate React dashboards
(`src/unnamed/part_000`, `src/frontend/src/StudyBuddyApp.jsx`,
`src/unnamed/part_001`).  This file gives a shallow embedding of the
state-bearing logic those dashboards implement:

* a model `Js` of loosely-typed JavaScript/JSON values with JS truthiness,
  property access (throwing on `null`/`undefined` bases), `||` chains and
  `Object.entries`;
* a model of `JSON.parse` (numbers are modelled as integers, string escapes
  are restricted to the common ones; both restrictions are irrelevant to the
  inputs used in the theorems below);
* the quiz-response decoder and per-question field resolution of
  `part_000`'s `renderContent` (MOCK tab), and the decoder of the frontend
  variant's `handleTestSubmit`;
* the `fetchSystemStatus` probe aggregation and the STATUS tab view;
* the submit/resolve mechanics of `handleQuerySubmit`, `handleFileUpload`,
  `handleTestSubmit` and `handleMockTestSubmit`, each modelled as a pure
  state transformer parameterised by the network outcome.
-/

set_option autoImplicit false

/-- A JavaScript value as the dashboards manipulate them: `undefined`,
`null`, booleans, numbers (modelled as integers), strings, arrays and
plain objects (ordered key/value lists). -/
inductive Js where
  | undefined : Js
  | null : Js
  | bool : Bool → Js
  | num : Int → Js
  | str : String → Js
  | arr : List Js → Js
  | obj : List (String × Js) → Js

/-- JS truthiness: `undefined`, `null`, `false`, `0` and `""` are falsy;
arrays and objects (even empty ones) are truthy. -/
def Js.truthy : Js → Bool
  | .undefined => false
  | .null => false
  | .bool b => b
  | .num n => n != 0
  | .str s => s != ""
  | .arr _ => true
  | .obj _ => true

/-- Property access `v.k` on a base that is known not to be
`null`/`undefined`: the first binding of `k` in an object, `undefined`
otherwise (arrays, strings and primitives have no named fields we use
except `length`, which is modelled separately). -/
def Js.getField (v : Js) (k : String) : Js :=
  match v with
  | .obj fs => (((fs.find? (fun p => p.1 == k)).map (fun p => p.2)).getD .undefined)
  | _ => .undefined

/-- Property access `v.k` as JS evaluates it: reading a property of
`null` or `undefined` throws a `TypeError`. -/
def Js.getFieldE (v : Js) (k : String) : Except String Js :=
  match v with
  | .undefined => .error ("TypeError: Cannot read properties of undefined (reading " ++ k ++ ")")
  | .null => .error ("TypeError: Cannot read properties of null (reading " ++ k ++ ")")
  | _ => .ok (v.getField k)

/-- The JS expression `a || b`: `a` if truthy, else `b`. -/
def jsOr (a b : Js) : Js := if a.truthy then a else b

/-- The `length` property: array/string length, an objects's own `length`
field, `undefined` on other values (the base is known non-nullish). -/
def Js.lengthProp (v : Js) : Js :=
  match v with
  | .arr xs => .num xs.length
  | .str s => .num s.length
  | .obj _ => v.getField "length"
  | _ => .undefined

/-- `v.length` as JS evaluates it, throwing on a nullish base. -/
def Js.lengthE (v : Js) : Except String Js :=
  match v with
  | .undefined => .error "TypeError: Cannot read properties of undefined (reading length)"
  | .null => .error "TypeError: Cannot read properties of null (reading length)"
  | _ => .ok v.lengthProp

/-- The JS comparison `v > k` as used on `length` values: numbers compare
numerically, `undefined > k` is false (NaN comparison). -/
def jsGT (v : Js) (k : Int) : Bool :=
  match v with
  | .num n => k < n
  | _ => false

/-- `Object.entries`: an object's own entries in insertion order; an array
yields index-keyed entries `("0", x0), ("1", x1), …`; a string yields its
characters; other primitives yield no entries. -/
def objectEntries (v : Js) : List (String × Js) :=
  match v with
  | .obj fs => fs
  | .arr xs => xs.enum.map (fun p => (toString p.1, p.2))
  | .str s => s.data.enum.map (fun p => (toString p.1, Js.str (String.singleton p.2)))
  | _ => []

/-- The JS object spread `{...v, k: x}`: replace the binding of `k` if
present, else append it; spreading a primitive contributes no fields. -/
def setField (v : Js) (k : String) (x : Js) : Js :=
  match v with
  | .obj fs =>
    if (fs.find? (fun p => p.1 == k)).isSome
    then .obj (fs.map (fun p => if p.1 == k then (p.1, x) else p))
    else .obj (fs ++ [(k, x)])
  | _ => .obj [(k, x)]

/-- `s.includes(pat)` on strings. -/
def containsSubstr (s pat : String) : Bool := (s.splitOn pat).length > 1

/-- `s.trim()`: strip leading and trailing whitespace. -/
def jsTrim (s : String) : String :=
  String.mk (((s.data.dropWhile Char.isWhitespace).reverse.dropWhile Char.isWhitespace).reverse)

/-! ### A model of `JSON.parse`

A recursive-descent parser over the character list, with a fuel argument
for termination.  Numbers are modelled as optionally-signed integers and
string escapes are limited to the common single-character ones; this is a
strict subset of the JSON grammar, adequate for every concrete input used
below. -/

/-- JSON insignificant whitespace. -/
def isWsChar (c : Char) : Bool := [' ', '\n', '\t', '\r'].contains c

/-- Drop leading JSON whitespace. -/
def skipWs (cs : List Char) : List Char := cs.dropWhile isWsChar

/-- The single-character JSON string escapes, as a lookup table from the
escape letter to the character it denotes. -/
def escapeTable : List (Char × Char) :=
  [('"', '"'), ('\\', '\\'), ('/', '/'), ('n', '\n'), ('t', '\t'), ('r', '\r')]

/-- Resolve a single-character escape. -/
def unescape (c : Char) : Option Char :=
  (escapeTable.find? (fun e => e.1 == c)).map (fun e => e.2)

/-- Parse the remainder of a JSON string literal (the opening quote has
been consumed), accumulating characters in reverse. -/
def parseStringRest : List Char → List Char → Option (String × List Char)
  | [], _ => none
  | c :: rest, acc =>
    if c == '"' then some (String.mk acc.reverse, rest)
    else if c == '\\' then
      match rest with
      | [] => none
      | e :: rest2 =>
        match unescape e with
        | some u => parseStringRest rest2 (u :: acc)
        | none => none
    else parseStringRest rest (c :: acc)

/-- Decimal digits to a natural number. -/
def digitsToNat (cs : List Char) : Nat := cs.foldl (fun n c => n * 10 + (c.toNat - 48)) 0

/-- Parse a JSON number (integer subset). -/
def parseNumber (cs : List Char) : Option (Js × List Char) :=
  match cs with
  | '-' :: rest =>
    let p := rest.span (fun c => c.isDigit)
    if p.1.isEmpty then none else some (.num (-(digitsToNat p.1 : Int)), p.2)
  | _ =>
    let p := cs.span (fun c => c.isDigit)
    if p.1.isEmpty then none else some (.num (digitsToNat p.1 : Int), p.2)

/-- The three keyword literals of JSON, with the value each denotes. -/
def jsonKeywords : List (String × Js) :=
  [("null", .null), ("true", .bool true), ("false", .bool false)]

/-- If `cs` starts with one of the keyword literals, its value and the
remaining characters. -/
def stripKeyword (cs : List Char) : Option (Js × List Char) :=
  (jsonKeywords.find? (fun kw => kw.1.data.isPrefixOf cs)).map
    (fun kw => (kw.2, cs.drop kw.1.length))

mutual

/-- Parse a JSON value. -/
def parseVal : Nat → List Char → Option (Js × List Char)
  | 0, _ => none
  | fuel + 1, cs =>
    let ws := skipWs cs
    match stripKeyword ws with
    | some kv => some kv
    | none =>
      match ws with
      | '"' :: rest => (parseStringRest rest []).map (fun p => (Js.str p.1, p.2))
      | '[' :: rest =>
        match skipWs rest with
        | ']' :: rest2 => some (.arr [], rest2)
        | _ => (parseElems fuel rest).map (fun p => (Js.arr p.1, p.2))
      | '\x7b' :: rest =>
        match skipWs rest with
        | '\x7d' :: rest2 => some (.obj [], rest2)
        | _ => (parseMembers fuel rest).map (fun p => (Js.obj p.1, p.2))
      | rest => parseNumber rest

/-- Parse the comma-separated elements of a non-empty JSON array, through
the closing bracket. -/
def parseElems : Nat → List Char → Option (List Js × List Char)
  | 0, _ => none
  | fuel + 1, cs => do
    let p ← parseVal fuel cs
    match skipWs p.2 with
    | ',' :: rest2 => do
      let q ← parseElems fuel rest2
      pure (p.1 :: q.1, q.2)
    | ']' :: rest2 => pure ([p.1], rest2)
    | _ => none

/-- Parse the members of a non-empty JSON object, through the closing
brace. -/
def parseMembers : Nat → List Char → Option (List (String × Js) × List Char)
  | 0, _ => none
  | fuel + 1, cs =>
    match skipWs cs with
    | '"' :: rest => do
      let k ← parseStringRest rest []
      match skipWs k.2 with
      | ':' :: rest3 => do
        let v ← parseVal fuel rest3
        match skipWs v.2 with
        | ',' :: rest5 => do
          let ms ← parseMembers fuel rest5
          pure ((k.1, v.1) :: ms.1, ms.2)
        | '\x7d' :: rest5 => pure ([(k.1, v.1)], rest5)
        | _ => none
      | _ => none
    | _ => none

end

/-- `JSON.parse`: parse the whole string, requiring only trailing
whitespace after the value; `none` models a thrown `SyntaxError`. -/
def parseJson (s : String) : Option Js :=
  match parseVal (s.length + 1) s.data with
  | some p => if skipWs p.2 = [] then some p.1 else none
  | none => none

/-! ### The quiz-response decoder of `part_000` (`renderContent`, MOCK tab)

Source (lines 355-372):
`let questions = mockResult.questions || mockResult.quiz_questions || mockResult.data?.questions || [];`
then a string candidate is `JSON.parse`d inside `try/catch` with fallback
`[]`, and `if (!questions.length && (mockResult.question_text || mockResult.question)) questions = [mockResult];`. -/

/-- The optional chain `mockResult.data?.questions`. -/
def dataQuestions (m : Js) : Js :=
  match m.getField "data" with
  | .undefined => .undefined
  | .null => .undefined
  | d => d.getField "questions"

/-- `mockResult.questions || mockResult.quiz_questions || mockResult.data?.questions || []`. -/
def candidateQuestions (m : Js) : Js :=
  jsOr (m.getField "questions") (jsOr (m.getField "quiz_questions") (jsOr (dataQuestions m) (.arr [])))

/-- The full question-list decoding of `part_000`: field-probe chain,
string candidates parsed with fallback to `[]`, then the single-question
wrap `questions = [mockResult]`.  The `Except` captures the `TypeError`
thrown by `questions.length` when a string candidate parses to `null`. -/
def decodeQuestions (m : Js) : Except String Js :=
  let q1 := candidateQuestions m
  let q2 := match q1 with
    | .str s => (parseJson s).getD (Js.arr [])
    | _ => q1
  match q2.lengthE with
  | .error e => .error e
  | .ok len =>
    if (!len.truthy) && (jsOr (m.getField "question_text") (m.getField "question")).truthy
    then .ok (Js.arr [m])
    else .ok q2

/-! ### Per-question field resolution of `part_000` (lines 381-401) -/

/-- `q.question_text || q.question || q.text || q.prompt || `Question ${i+1}``. -/
def textChain (q : Js) (i : Nat) : Js :=
  jsOr (q.getField "question_text") (jsOr (q.getField "question")
    (jsOr (q.getField "text") (jsOr (q.getField "prompt") (.str ("Question " ++ toString (i + 1))))))

/-- `q.options || q.choices || q.answers || []`. -/
def optionsChain (q : Js) : Js :=
  jsOr (q.getField "options") (jsOr (q.getField "choices") (jsOr (q.getField "answers") (.arr [])))

/-- `q.correct_answer || q.answer || q.correct || q.solution` (no default:
`undefined` when every link is falsy). -/
def correctChain (q : Js) : Js :=
  jsOr (q.getField "correct_answer") (jsOr (q.getField "answer")
    (jsOr (q.getField "correct") (q.getField "solution")))

/-- `q.difficulty || q.level || 'Medium'`. -/
def difficultyChain (q : Js) : Js :=
  jsOr (q.getField "difficulty") (jsOr (q.getField "level") (.str "Medium"))

/-- `String.fromCharCode(65 + idx)`: the synthesized option label. -/
def labelOf (idx : Nat) : String := String.singleton (Char.ofNat (65 + idx))

/-- The options block of `part_000`:
`options.length > 0 && options.map((option, idx) => <li data-option={String.fromCharCode(65 + idx)}>…)`.
A non-array `options` with a truthy `length` makes `options.map` throw. -/
def renderedOptionsPart000 (q : Js) : Except String (List (String × Js)) :=
  let options := optionsChain q
  match options.lengthE with
  | .error e => .error e
  | .ok olen =>
    if jsGT olen 0 then
      match options with
      | .arr xs => .ok (xs.enum.map (fun p => (labelOf p.1, p.2)))
      | _ => .error "TypeError: options.map is not a function"
    else .ok []

/-- One question as `part_000` renders it: the resolved text, the
difficulty value and its lower-cased badge class, the labelled options
and the resolved correct answer. -/
structure RenderedQuestion where
  text : Js
  difficulty : Js
  difficultyClass : String
  options : List (String × Js)
  correctAnswer : Js

/-- Render one question (`part_000` lines 379-408).  Reading
`q.question_text` of a nullish entry throws, as does
`difficulty.toLowerCase()` when the resolved difficulty is not a
string. -/
def renderQ (q : Js) (i : Nat) : Except String RenderedQuestion :=
  match q with
  | .undefined => .error "TypeError: Cannot read properties of undefined (reading question_text)"
  | .null => .error "TypeError: Cannot read properties of null (reading question_text)"
  | _ =>
    match difficultyChain q with
    | .str s =>
      match renderedOptionsPart000 q with
      | .error e => .error e
      | .ok opts => .ok ⟨textChain q i, .str s, s.toLower, opts, correctChain q⟩
    | _ => .error "TypeError: difficulty.toLowerCase is not a function"

/-- The complete MOCK-tab normalization of `part_000`: the guard
`mockResult && …`, the decoder, then
`questions.length > 0 ? questions.map((q, i) => …) : <no questions>`.
`questions.map` throws when the decoded candidate is not an array (for
example a parsed non-empty string). -/
def renderQuestions (m : Js) : Except String (List RenderedQuestion) :=
  if !m.truthy then .ok []
  else
    match decodeQuestions m with
    | .error e => .error e
    | .ok qs =>
      match qs.lengthE with
      | .error e => .error e
      | .ok len =>
        if jsGT len 0 then
          match qs with
          | .arr xs => xs.enum.mapM (fun p => renderQ p.2 p.1)
          | _ => .error "TypeError: questions.map is not a function"
        else .ok []

/-! ### The frontend variant (`StudyBuddyApp.jsx`) -/

/-- The frontend's question extraction (line 182):
`Array.isArray(response.data) ? response.data : response.data.questions || []`. -/
def frontendQuestionsE (d : Js) : Except String Js :=
  match d with
  | .arr xs => .ok (.arr xs)
  | .undefined => .error "TypeError: Cannot read properties of undefined (reading questions)"
  | .null => .error "TypeError: Cannot read properties of null (reading questions)"
  | _ => .ok (jsOr (d.getField "questions") (.arr []))

/-- The frontend's options block (lines 248-254):
`q.options && Object.entries(q.options).map(([key, val]) => <li><strong>{key}:</strong> {val}</li>)`. -/
def renderedOptionsFrontend (q : Js) : Except String (List (String × Js)) :=
  match q.getFieldE "options" with
  | .error e => .error e
  | .ok o => if o.truthy then .ok (objectEntries o) else .ok []

/-! ### Status probe aggregation (`fetchSystemStatus`, identical in all
three variants)

The source wraps both probes in a single `try`: on any failure the whole
snapshot becomes `{ status: 'OFFLINE', documents_loaded: 0, error: true }`;
on double success the temp-store payload is spread into the primary one. -/

/-- The snapshot installed by the `catch` branch. -/
def offlineStatus : Js :=
  .obj [("status", .str "OFFLINE"), ("documents_loaded", .num 0), ("error", .bool true)]

/-- `fetchSystemStatus` as a function of the two probe outcomes.  The
secondary argument is the outcome the temp-store probe would deliver; when
the primary probe fails the secondary is never even attempted, which the
model reflects by ignoring it. -/
def fetchSystemStatus (primary secondary : Except Unit Js) : Js :=
  match primary with
  | .error _ => offlineStatus
  | .ok pd =>
    match secondary with
    | .error _ => offlineStatus
    | .ok sd => setField pd "temp_store" sd

/-- What the STATUS tab shows of a `systemStatus` value (`part_000` lines
454-477): the API status string, `documents_loaded || 0`, whether
`(systemStatus.temp_store || {}).is_active` is truthy, and — only when
active — `chunk_count || 0` and `document_name || 'N/A'`. -/
structure StatusView where
  apiStatus : Js
  docsLoaded : Js
  tempActive : Bool
  tempDetail : Option (Js × Js)

/-- Project a `systemStatus` value to the rendered status view. -/
def viewSnapshot (s : Js) : StatusView :=
  let temp := jsOr (s.getField "temp_store") (.obj [])
  let active := (temp.getField "is_active").truthy
  { apiStatus := s.getField "status"
    docsLoaded := jsOr (s.getField "documents_loaded") (.num 0)
    tempActive := active
    tempDetail :=
      if active
      then some (jsOr (temp.getField "chunk_count") (.num 0), jsOr (temp.getField "document_name") (.str "N/A"))
      else none }

/-! ### The `part_000` dashboard state machine

Each `async` handler is modelled as a pure function from the pre-call
state and the network outcome to the post-call state; where a claim needs
the interleaving of two in-flight calls, the synchronous prefix of
`handleQuerySubmit` (everything before `await`) and the resolution that
runs when the response arrives are exposed as separate functions. -/

/-- One `chatHistory` entry: `{ query, answer }`. -/
structure ChatEntry where
  query : String
  answer : String
deriving DecidableEq, Repr

/-- The optimistic placeholder answer of a just-submitted query. -/
def pendingAnswer : String := "Generating answer..."

/-- The answer written by `handleQuerySubmit`'s catch branch. -/
def failedAnswer : String := "Error: Failed to generate answer."

/-- The component state of the `part_000` dashboard (the fields the
handlers under verification touch). -/
structure AppState where
  loading : Bool
  error : Option String
  selectedFile : Option String
  uploadMessage : String
  query : String
  answer : String
  chatHistory : List ChatEntry
  mockTopic : String
  mockResult : Option Js

/-- The synchronous prefix of `handleQuerySubmit` (lines 143-152), run
before the network call suspends: clear the input, set loading, clear the
error, show 'Thinking...' and append the optimistic history entry. -/
def submitQueryPhase (st : AppState) : AppState :=
  let currentQuery := jsTrim st.query
  { st with
    query := "", loading := true, error := none, answer := "Thinking...",
    chatHistory := st.chatHistory ++ [⟨currentQuery, pendingAnswer⟩] }

/-- The history update of `handleQuerySubmit` (lines 160-169 and 176-185):
if the LAST entry's query text equals the resolved call's query text,
overwrite that entry's answer, else push a new entry. -/
def applyToHistory (hist : List ChatEntry) (q ans : String) : List ChatEntry :=
  match hist.getLast? with
  | some last =>
    if last.query = q
    then hist.dropLast ++ [⟨last.query, ans⟩]
    else hist ++ [⟨q, ans⟩]
  | none => hist ++ [⟨q, ans⟩]

/-- The resolution of a successful query response: `q` is the
`currentQuery` captured at submission time. -/
def resolveQuerySuccess (st : AppState) (q newAnswer : String) : AppState :=
  { st with
    answer := newAnswer, chatHistory := applyToHistory st.chatHistory q newAnswer,
    loading := false }

/-- The resolution of a failed query call (catch branch, then finally). -/
def resolveQueryFailure (st : AppState) (q detail : String) : AppState :=
  { st with
    error := some ("Query Failed: " ++ detail), answer := failedAnswer,
    chatHistory := applyToHistory st.chatHistory q failedAnswer, loading := false }

/-- `handleQuerySubmit` run to completion with outcome `oc` (`.ok answer`
or `.error detail`); an empty trimmed query returns before any effect. -/
def handleQuerySubmit (st : AppState) (oc : Except String String) : AppState :=
  let currentQuery := jsTrim st.query
  if currentQuery = "" then st
  else
    let st1 := submitQueryPhase st
    match oc with
    | .ok ans => resolveQuerySuccess st1 currentQuery ans
    | .error detail => resolveQueryFailure st1 currentQuery detail

/-- `handleFileUpload` run to completion (lines 107-139): no-op without a
selected file; on success the upload message is set, the chat history is
CLEARED, and the answer depends on whether the backend status message
contains "Temporarily"; loading is cleared and the file deselected in
`finally` on both paths.  The outcome carries `response.data.status`. -/
def handleFileUpload (st : AppState) (oc : Except String String) : AppState :=
  match st.selectedFile with
  | none => st
  | some fileName =>
    let st1 := { st with loading := true, error := none, uploadMessage := "Indexing document..." }
    match oc with
    | .ok statusMsg =>
      { st1 with
        uploadMessage := "Success! Status: " ++ statusMsg,
        chatHistory := [],
        answer :=
          if containsSubstr statusMsg "Temporarily"
          then "Book \"" ++ fileName ++ "\" indexed temporarily. Ready to ask questions."
          else "Book \"" ++ fileName ++ "\" permanently saved. Ready to ask questions.",
        loading := false, selectedFile := none }
    | .error detail =>
      { st1 with
        error := some ("Upload Failed: " ++ detail), uploadMessage := "",
        loading := false, selectedFile := none }

/-- The error quiz result installed by the catch branches of `part_000`'s
`handleTestSubmit` and `part_001`'s `handleMockTestSubmit`. -/
def generationErrorResult : Js :=
  .obj [("test_title", .str "Generation Error"), ("questions", .arr [])]

/-- `handleTestSubmit` of `part_000` (lines 192-225) run to completion:
an empty trimmed topic only sets the error banner; otherwise the result
is stored on success, and on failure the error banner is set and the
result becomes the error-titled empty quiz. -/
def handleTestSubmit (st : AppState) (oc : Except String Js) : AppState :=
  let topic := jsTrim st.mockTopic
  if topic = "" then { st with error := some "Please enter a topic to generate a quiz." }
  else
    let st1 := { st with loading := true, error := none, mockResult := none }
    match oc with
    | .ok d => { st1 with mockResult := some d, loading := false }
    | .error detail =>
      { st1 with
        error := some ("Quiz/Test Generation Failed: " ++ detail),
        mockResult := some generationErrorResult, loading := false }

/-! ### The frontend variant's handlers (`StudyBuddyApp.jsx`) -/

/-- The component state of the frontend dashboard. -/
structure FrontState where
  loading : Bool
  error : Option String
  query : String
  answer : String
  chatHistory : List ChatEntry
  mockTopic : String
  mockResult : Option Js

/-- The frontend's success-path history update (lines 150-154):
`updated[updated.length - 1].answer = newAnswer` — overwrite the last
entry unconditionally (no query-text check; the handler has just pushed
an entry, so the history is non-empty there). -/
def setLastAnswer (hist : List ChatEntry) (ans : String) : List ChatEntry :=
  match hist.getLast? with
  | some last => hist.dropLast ++ [⟨last.query, ans⟩]
  | none => hist

/-- The frontend's `handleQuerySubmit` (lines 132-160) run to
completion. -/
def handleQuerySubmitF (st : FrontState) (oc : Except String String) : FrontState :=
  let currentQuery := jsTrim st.query
  if currentQuery = "" then st
  else
    let st1 : FrontState := { st with
      query := "", loading := true, error := none, answer := "Thinking...",
      chatHistory := st.chatHistory ++ [⟨currentQuery, "Generating..."⟩] }
    match oc with
    | .ok newAnswer =>
      { st1 with
        answer := newAnswer, chatHistory := setLastAnswer st1.chatHistory newAnswer,
        loading := false }
    | .error detail => { st1 with error := some ("Query Failed: " ++ detail), loading := false }

/-- The frontend's `handleTestSubmit` (lines 163-189) run to completion:
the stored result is the extracted question list; a `TypeError` thrown by
the extraction inside `try` lands in the same catch as a transport
error. -/
def handleTestSubmitF (st : FrontState) (oc : Except String Js) : FrontState :=
  if jsTrim st.mockTopic = "" then { st with error := some "Please enter a topic." }
  else
    let st1 := { st with loading := true, error := none, mockResult := none }
    let fail := fun (detail : String) =>
      { st1 with
        error := some ("Quiz Generation Failed: " ++ detail),
        mockResult := some (Js.arr []), loading := false }
    match oc with
    | .ok d =>
      match frontendQuestionsE d with
      | .ok v => { st1 with mockResult := some v, loading := false }
      | .error msg => fail msg
    | .error detail => fail detail

/-! ### The `part_001` variant's mock-test handler -/

/-- The component state of the `part_001` dashboard (mock-test slice). -/
structure MockState where
  loading : Bool
  error : Option String
  mockResult : Option Js

/-- `handleMockTestSubmit` of `part_001` (lines 140-156) run to
completion: no local validation; on failure the banner is set (with the
variant's trailing hint) and the result becomes the error-titled empty
quiz. -/
def handleMockTestSubmit (st : MockState) (oc : Except String Js) : MockState :=
  let st1 := { st with loading := true, error := none, mockResult := none }
  match oc with
  | .ok d => { st1 with mockResult := some d, loading := false }
  | .error detail =>
    { st1 with
      error := some ("Mock Test Generation Failed: " ++ detail ++ ". Check the backend console."),
      mockResult := some generationErrorResult, loading := false }

/-! ### Concrete states and traces used by the theorems -/

/-- The initial `part_000` component state. -/
def initialAppState : AppState :=
  { loading := false, error := none, selectedFile := none, uploadMessage := "",
    query := "", answer := "Hello! Start by uploading a document or asking a question.",
    chatHistory := [], mockTopic := "", mockResult := none }

/-- Trace: the user types query "A". -/
def c1s0 : AppState := { initialAppState with query := "A" }

/-- Trace: first submission of "A" (synchronous prefix; the call is now
in flight). -/
def c1s1 : AppState := submitQueryPhase c1s0

/-- Trace: the user types "A" again while the first call is pending. -/
def c1s2 : AppState := { c1s1 with query := "A" }

/-- Trace: second submission of "A" (two calls now in flight). -/
def c1s3 : AppState := submitQueryPhase c1s2

/-- Trace: the FIRST call's response arrives and is resolved. -/
def c1s4 : AppState := resolveQuerySuccess c1s3 "A" "first answer"

/-- Trace: the SECOND call's response arrives and is resolved. -/
def c1s5 : AppState := resolveQuerySuccess c1s4 "A" "second answer"

/-- Trace: the user types query "hi". -/
def c6s0 : AppState := { initialAppState with query := "hi" }

/-- Trace: "hi" is submitted (one pending turn in the log). -/
def c6s1 : AppState := submitQueryPhase c6s0

/-- Trace: a document is then uploaded successfully. -/
def c6s2 : AppState := handleFileUpload { c6s1 with selectedFile := some "notes.pdf" } (.ok "Saved Permanently")

/-- A successful primary-probe payload with three indexed documents. -/
def online3 : Js := .obj [("status", .str "ONLINE"), ("documents_loaded", .num 3)]

/-- A quiz payload that is itself a bare array of one question object. -/
def bareArrayPayload : Js := .arr [.obj [("question", .str "2+2?")]]

/-- A quiz payload whose question list sits under `quiz_questions`. -/
def quizQuestionsPayload : Js := .obj [("quiz_questions", .arr [.obj [("question", .str "2+2?")]])]

/-- A quiz payload whose `questions` array contains a `null` entry. -/
def nullEntryPayload : Js := .obj [("questions", .arr [.null])]

/-- A sample frontend component state with a non-empty query and topic. -/
def sampleFrontState : FrontState :=
  { loading := false, error := none, query := "q", answer := "",
    chatHistory := [], mockTopic := "t", mockResult := none }

/-- A sample `part_001` component state. -/
def sampleMockState : MockState := { loading := false, error := none, mockResult := none }

/-! ## Theorems -/

/-- Structure of `applyToHistory`: either a fresh entry is pushed, or the
list ends in an entry with the resolved query text and only that entry's
answer is rewritten. -/
theorem applyToHistory_spec (hist : List ChatEntry) (q ans : String) :
    applyToHistory hist q ans = hist ++ [⟨q, ans⟩] ∨
    ∃ last, hist.getLast? = some last ∧ last.query = q ∧
      applyToHistory hist q ans = hist.dropLast ++ [⟨q, ans⟩] ∧
      hist.dropLast ++ [last] = hist := by
  unfold applyToHistory
  cases h : hist.getLast? with
  | none => left; rfl
  | some last =>
    by_cases hq : last.query = q
    · right
      refine ⟨last, rfl, hq, ?_, ?_⟩
      · simp [hq]
      · exact List.dropLast_append_getLast? last (Option.mem_def.mpr h)
    · left
      simp [hq]

/-- `applyToHistory` never removes an entry: the length stays the same or
grows by one, and the existing entries' query texts are preserved as a
prefix of the result's query texts. -/
theorem applyToHistory_preserves (hist : List ChatEntry) (q ans : String) :
    ((applyToHistory hist q ans).length = hist.length ∨
      (applyToHistory hist q ans).length = hist.length + 1) ∧
    hist.map ChatEntry.query <+: (applyToHistory hist q ans).map ChatEntry.query := by
  rcases applyToHistory_spec hist q ans with h | ⟨last, _, hq, h, hdec⟩
  · rw [h]
    constructor
    · right; simp
    · exact ⟨[q], by simp⟩
  · rw [h]
    have hlen : hist.dropLast.length + 1 = hist.length := by
      conv_rhs => rw [← hdec]
      simp
    constructor
    · left; simpa using hlen
    · have hmap : hist.map ChatEntry.query
          = hist.dropLast.map ChatEntry.query ++ [q] := by
        conv_lhs => rw [← hdec]
        simp [hq]
      rw [hmap]
      simp

/-- Claim C1: the scenario "submit query A, then before it resolves submit
query A again; resolving the first must not finalize the second turn, and
a terminal turn is never overwritten" fails on the code.  `part_000`'s
`handleQuerySubmit` correlates a completed call with the log by comparing
the call's query TEXT with the LAST entry: after two submissions of "A",
resolving the first call rewrites the second turn and leaves the first
turn pending forever, and resolving the second call then overwrites the
already-resolved turn (there is no token and no Pending guard). -/
theorem query_text_matching_misresolves :
    c1s1.chatHistory = [⟨"A", pendingAnswer⟩] ∧
    c1s3.chatHistory = [⟨"A", pendingAnswer⟩, ⟨"A", pendingAnswer⟩] ∧
    c1s4.chatHistory = [⟨"A", pendingAnswer⟩, ⟨"A", "first answer"⟩] ∧
    c1s5.chatHistory = [⟨"A", pendingAnswer⟩, ⟨"A", "second answer"⟩] :=
  ⟨rfl, rfl, rfl, rfl⟩

/-- Claim C2: the partial-success policy fails on the code.  Both probes
sit in one `try`: when the primary probe succeeds (three documents
loaded, status ONLINE) and the temp-store probe then fails, the `catch`
replaces the whole snapshot with the OFFLINE default — the primary's
successful result IS discarded, and the rendered view shows OFFLINE with
zero documents. -/
theorem secondary_failure_discards_primary :
    fetchSystemStatus (.ok online3) (.error ()) = offlineStatus ∧
    viewSnapshot (fetchSystemStatus (.ok online3) (.error ())) =
      ⟨Js.str "OFFLINE", Js.num 0, false, none⟩ :=
  ⟨rfl, rfl⟩

/-- Claim C3: whatever the secondary (temp-store) probe would have
delivered, a failed primary probe yields the OFFLINE snapshot: status
string "OFFLINE", zero documents, inactive temp store with no chunk count
or document name rendered. -/
theorem primary_failure_dominates (e : Unit) (sec : Except Unit Js) :
    viewSnapshot (fetchSystemStatus (.error e) sec) =
      ⟨Js.str "OFFLINE", Js.num 0, false, none⟩ :=
  rfl

/-- Claim C5: "normalize never raises past its boundary" fails on the
code.  On the payload `{"questions":[null]}` the decoder accepts the
array, and the per-question rendering then reads `q.question_text` of the
`null` entry, throwing a `TypeError` that crashes the render. -/
theorem normalize_raises_on_null_entry :
    renderQuestions nullEntryPayload =
      .error "TypeError: Cannot read properties of null (reading question_text)" :=
  rfl

/-- Claim C6 (counterexample): "no operation ever deletes a turn from the
log" is false — after submitting the query "hi" the log holds one pending
turn, and a successful document upload then clears the log entirely
(`setChatHistory([])` in `handleFileUpload`). -/
theorem upload_clears_conversation_log :
    c6s1.chatHistory = [⟨"hi", pendingAnswer⟩] ∧ c6s2.chatHistory = [] :=
  ⟨rfl, rfl⟩

/-- Claim C6 (amended): every query submission appends exactly one pending
turn, preserving the existing turns; a resolution never deletes a turn —
it rewrites the last turn's answer when that turn's query text matches,
else pushes a new turn (so the log can also GROW by one on resolution);
but a successful document upload clears the log. -/
theorem log_append_and_upload_clear :
    (∀ st : AppState,
      (submitQueryPhase st).chatHistory = st.chatHistory ++ [⟨jsTrim st.query, pendingAnswer⟩])
  ∧ (∀ (hist : List ChatEntry) (q ans : String),
      ((applyToHistory hist q ans).length = hist.length ∨
        (applyToHistory hist q ans).length = hist.length + 1)
      ∧ hist.map ChatEntry.query <+: (applyToHistory hist q ans).map ChatEntry.query)
  ∧ (∀ (st : AppState) (f msg : String), st.selectedFile = some f →
      (handleFileUpload st (.ok msg)).chatHistory = []) := by
  refine ⟨fun st => rfl, applyToHistory_preserves, fun st f msg h => ?_⟩
  simp [handleFileUpload, h]

/-- Witness for the amended C6 at concrete inputs. -/
theorem log_append_and_upload_clear_witness :
    (handleFileUpload { initialAppState with selectedFile := some "notes.pdf" }
      (.ok "Saved Permanently")).chatHistory = [] :=
  log_append_and_upload_clear.2.2
    { initialAppState with selectedFile := some "notes.pdf" } "notes.pdf" "Saved Permanently" rfl

/-- Claim C4 (counterexample): no single decoder implements the claimed
chain.  In `part_000` a payload that is itself a sequence is NOT taken as
the question list — a bare one-question array decodes and renders to the
EMPTY list (arrays have no `questions`/`quiz_questions`/`data` fields and
no `question_text`/`question` field, so the chain's default wins) — while
the frontend decoder, the only one with the direct-sequence case, never
probes `quiz_questions`: a payload carrying its questions there yields
the empty list too. -/
theorem decoder_chain_split_across_variants :
    decodeQuestions bareArrayPayload = .ok (.arr []) ∧
    renderQuestions bareArrayPayload = .ok [] ∧
    Js.arr [] ≠ bareArrayPayload ∧
    frontendQuestionsE quizQuestionsPayload = .ok (.arr []) := by
  refine ⟨rfl, rfl, ?_, rfl⟩
  intro h
  simp [bareArrayPayload] at h

/-- Claim C4 (amended): in the `part_000` decoder the fields `questions`,
`quiz_questions`, `data.questions` are probed in that priority order
(first truthy value wins) with default `[]`; a string candidate is parsed
(parse failure falling back to `[]`); a candidate that is an empty (or
absent) list is replaced by `[mockResult]` when the payload has a truthy
`question_text` or `question` field; a non-empty array candidate is taken
as the question list.  A payload that is itself a sequence is taken
directly only in the frontend variant, whose decoder probes only the
`questions` field otherwise. -/
theorem decode_chain_characterisation :
    (∀ m : Js, (m.getField "questions").truthy = true →
      candidateQuestions m = m.getField "questions")
  ∧ (∀ m : Js, (m.getField "questions").truthy = false →
      (m.getField "quiz_questions").truthy = true →
      candidateQuestions m = m.getField "quiz_questions")
  ∧ (∀ m : Js, (m.getField "questions").truthy = false →
      (m.getField "quiz_questions").truthy = false →
      (dataQuestions m).truthy = true →
      candidateQuestions m = dataQuestions m)
  ∧ (∀ m : Js, (m.getField "questions").truthy = false →
      (m.getField "quiz_questions").truthy = false →
      (dataQuestions m).truthy = false →
      candidateQuestions m = Js.arr [])
  ∧ (∀ (m : Js) (xs : List Js), candidateQuestions m = Js.arr xs → xs ≠ [] →
      decodeQuestions m = .ok (Js.arr xs))
  ∧ (∀ m : Js, candidateQuestions m = Js.arr [] →
      (jsOr (m.getField "question_text") (m.getField "question")).truthy = true →
      decodeQuestions m = .ok (Js.arr [m]))
  ∧ (∀ m : Js, candidateQuestions m = Js.arr [] →
      (jsOr (m.getField "question_text") (m.getField "question")).truthy = false →
      decodeQuestions m = .ok (Js.arr []))
  ∧ (∀ (m : Js) (s : String), candidateQuestions m = Js.str s →
      parseJson s = none →
      (jsOr (m.getField "question_text") (m.getField "question")).truthy = false →
      decodeQuestions m = .ok (Js.arr []))
  ∧ (∀ (m : Js) (s : String) (xs : List Js), candidateQuestions m = Js.str s →
      parseJson s = some (Js.arr xs) → xs ≠ [] →
      decodeQuestions m = .ok (Js.arr xs))
  ∧ (∀ xs : List Js, frontendQuestionsE (Js.arr xs) = .ok (Js.arr xs))
  ∧ (∀ fs : List (String × Js),
      frontendQuestionsE (Js.obj fs) = .ok (jsOr ((Js.obj fs).getField "questions") (Js.arr []))) := by
  refine ⟨?_, ?_, ?_, ?_, ?_, ?_, ?_, ?_, ?_, fun xs => rfl, fun fs => rfl⟩
  · intro m h
    simp [candidateQuestions, jsOr, h]
  · intro m h1 h2
    simp [candidateQuestions, jsOr, h1, h2]
  · intro m h1 h2 h3
    simp [candidateQuestions, jsOr, h1, h2, h3]
  · intro m h1 h2 h3
    simp [candidateQuestions, jsOr, h1, h2, h3]
  · intro m xs hc hne
    have hlen : (xs.length : Int) ≠ 0 := by simpa using hne
    simp [decodeQuestions, hc, Js.lengthE, Js.lengthProp, Js.truthy, hlen]
  · intro m hc hw
    simp [decodeQuestions, hc, Js.lengthE, Js.lengthProp, hw,
      show (Js.num 0).truthy = false from rfl]
  · intro m hc hw
    simp [decodeQuestions, hc, Js.lengthE, Js.lengthProp, hw,
      show (Js.num 0).truthy = false from rfl]
  · intro m s hc hp hw
    simp [decodeQuestions, hc, hp, Js.lengthE, Js.lengthProp, hw,
      show (Js.num 0).truthy = false from rfl]
  · intro m s xs hc hp hne
    have hlen : (xs.length : Int) ≠ 0 := by simpa using hne
    simp [decodeQuestions, hc, hp, Js.lengthE, Js.lengthProp, Js.truthy, hlen]

/-- Witness for the amended C4 at concrete inputs. -/
theorem decode_chain_characterisation_witness :
    candidateQuestions quizQuestionsPayload
      = Js.arr [Js.obj [("question", Js.str "2+2?")]] ∧
    decodeQuestions quizQuestionsPayload
      = .ok (Js.arr [Js.obj [("question", Js.str "2+2?")]]) :=
  ⟨decode_chain_characterisation.2.1 quizQuestionsPayload rfl rfl,
    decode_chain_characterisation.2.2.2.2.1 quizQuestionsPayload
      [Js.obj [("question", Js.str "2+2?")]]
      (decode_chain_characterisation.2.1 quizQuestionsPayload rfl rfl)
      (by simp)⟩

/-- Claim C7 (counterexample): no single renderer implements both halves
of the claim.  The `part_000` renderer (the one that synthesizes labels
A, B, C, …) renders NO options for a mapping — `options.length` is
`undefined` for a plain object, so the keys never become labels — while
the frontend renderer gives a sequence the positional numeric labels
"0", "1", … of `Object.entries`, not A, B, C. -/
theorem option_labels_split_across_variants :
    renderedOptionsPart000 (Js.obj [("options", Js.obj [("A", Js.str "x"), ("B", Js.str "y")])])
      = .ok [] ∧
    renderedOptionsFrontend (Js.obj [("options", Js.arr [Js.str "3", Js.str "4"])])
      = .ok [("0", Js.str "3"), ("1", Js.str "4")] ∧
    ("0" : String) ≠ "A" :=
  ⟨rfl, rfl, by decide⟩

/-- Claim C7 (amended): in the frontend renderer, `Object.entries` is
applied to any truthy options value, so a mapping's keys become the
labels in iteration order while a sequence receives positional numeric
labels "0", "1", …; in the `part_000` renderer, a non-empty sequence
receives synthesized labels A, B, C, … by position while a mapping's
options are not rendered at all. -/
theorem option_labels_characterisation :
    (∀ (base fs : List (String × Js)), (Js.obj base).getField "options" = Js.obj fs →
      renderedOptionsFrontend (Js.obj base) = .ok fs)
  ∧ (∀ (base : List (String × Js)) (xs : List Js),
      (Js.obj base).getField "options" = Js.arr xs →
      renderedOptionsFrontend (Js.obj base)
        = .ok (xs.enum.map (fun p => (toString p.1, p.2))))
  ∧ (∀ (q : Js) (xs : List Js), optionsChain q = Js.arr xs → xs ≠ [] →
      renderedOptionsPart000 q = .ok (xs.enum.map (fun p => (labelOf p.1, p.2))))
  ∧ (∀ q : Js, optionsChain q = Js.arr [] → renderedOptionsPart000 q = .ok [])
  ∧ (∀ (q : Js) (fs : List (String × Js)), optionsChain q = Js.obj fs →
      (Js.obj fs).getField "length" = Js.undefined →
      renderedOptionsPart000 q = .ok []) := by
  refine ⟨?_, ?_, ?_, ?_, ?_⟩
  · intro base fs h
    simp [renderedOptionsFrontend, Js.getFieldE, h, Js.truthy, objectEntries]
  · intro base xs h
    simp [renderedOptionsFrontend, Js.getFieldE, h, Js.truthy, objectEntries]
  · intro q xs h hne
    have hlen : (0 : Int) < xs.length := by simpa using List.length_pos.mpr hne
    simp [renderedOptionsPart000, h, Js.lengthE, Js.lengthProp, jsGT, hlen]
  · intro q h
    simp [renderedOptionsPart000, h, Js.lengthE, Js.lengthProp, jsGT]
  · intro q fs h hlen
    simp [renderedOptionsPart000, h, Js.lengthE, Js.lengthProp, hlen, jsGT]

/-- Witness for the amended C7 at concrete inputs. -/
theorem option_labels_characterisation_witness :
    renderedOptionsFrontend (Js.obj [("options", Js.obj [("B", Js.str "four")])])
      = .ok [("B", Js.str "four")] ∧
    renderedOptionsPart000 (Js.obj [("options", Js.arr [Js.str "3", Js.str "4"])])
      = .ok [("A", Js.str "3"), ("B", Js.str "4")] := by
  constructor
  · exact option_labels_characterisation.1 [("options", Js.obj [("B", Js.str "four")])]
      [("B", Js.str "four")] rfl
  · have h := option_labels_characterisation.2.2.1
      (Js.obj [("options", Js.arr [Js.str "3", Js.str "4"])])
      [Js.str "3", Js.str "4"] rfl (by simp)
    simpa [labelOf] using h

/-- Claim C8 (counterexample): "first present" fails on the code — the
chains use `||`, which skips a PRESENT but falsy value.  A question whose
`question_text` is present with value `""` resolves its text to the next
link, not to `""`. -/
theorem present_empty_field_is_skipped :
    textChain (Js.obj [("question_text", Js.str ""), ("question", Js.str "What is 2 plus 2?")]) 0
      = Js.str "What is 2 plus 2?" ∧
    (Js.obj [("question_text", Js.str ""), ("question", Js.str "What is 2 plus 2?")]).getField
      "question_text" = Js.str "" ∧
    ("What is 2 plus 2?" : String) ≠ "" :=
  ⟨rfl, rfl, by decide⟩

/-- Claim C8 (amended): for every normalized question at index `i`, its
text is the first of `question_text`, `question`, `text`, `prompt` whose
value is truthy (a present but falsy value such as `""` is skipped), else
the synthesized "Question i+1"; its correct answer is the first truthy of
`correct_answer`, `answer`, `correct`, falling through to `solution`
(possibly `undefined`, i.e. absent); its difficulty is the first truthy
of `difficulty`, `level`, else "Medium". -/
theorem field_resolution_characterisation :
    (∀ (q : Js) (i : Nat), (q.getField "question_text").truthy = true →
      textChain q i = q.getField "question_text")
  ∧ (∀ (q : Js) (i : Nat), (q.getField "question_text").truthy = false →
      (q.getField "question").truthy = true →
      textChain q i = q.getField "question")
  ∧ (∀ (q : Js) (i : Nat), (q.getField "question_text").truthy = false →
      (q.getField "question").truthy = false →
      (q.getField "text").truthy = true →
      textChain q i = q.getField "text")
  ∧ (∀ (q : Js) (i : Nat), (q.getField "question_text").truthy = false →
      (q.getField "question").truthy = false →
      (q.getField "text").truthy = false →
      (q.getField "prompt").truthy = true →
      textChain q i = q.getField "prompt")
  ∧ (∀ (q : Js) (i : Nat), (q.getField "question_text").truthy = false →
      (q.getField "question").truthy = false →
      (q.getField "text").truthy = false →
      (q.getField "prompt").truthy = false →
      textChain q i = Js.str ("Question " ++ toString (i + 1)))
  ∧ (∀ q : Js, (q.getField "correct_answer").truthy = true →
      correctChain q = q.getField "correct_answer")
  ∧ (∀ q : Js, (q.getField "correct_answer").truthy = false →
      (q.getField "answer").truthy = true →
      correctChain q = q.getField "answer")
  ∧ (∀ q : Js, (q.getField "correct_answer").truthy = false →
      (q.getField "answer").truthy = false →
      (q.getField "correct").truthy = true →
      correctChain q = q.getField "correct")
  ∧ (∀ q : Js, (q.getField "correct_answer").truthy = false →
      (q.getField "answer").truthy = false →
      (q.getField "correct").truthy = false →
      correctChain q = q.getField "solution")
  ∧ (∀ q : Js, (q.getField "difficulty").truthy = true →
      difficultyChain q = q.getField "difficulty")
  ∧ (∀ q : Js, (q.getField "difficulty").truthy = false →
      (q.getField "level").truthy = true →
      difficultyChain q = q.getField "level")
  ∧ (∀ q : Js, (q.getField "difficulty").truthy = false →
      (q.getField "level").truthy = false →
      difficultyChain q = Js.str "Medium") := by
  refine ⟨?_, ?_, ?_, ?_, ?_, ?_, ?_, ?_, ?_, ?_, ?_, ?_⟩ <;>
    (intro q
     intros
     simp_all [textChain, correctChain, difficultyChain, jsOr])

/-- Witness for the amended C8 at concrete inputs. -/
theorem field_resolution_characterisation_witness :
    textChain (Js.obj [("prompt", Js.str "Define RAG")]) 1 = Js.str "Define RAG" ∧
    textChain (Js.obj []) 0 = Js.str "Question 1" ∧
    correctChain (Js.obj []) = Js.undefined ∧
    difficultyChain (Js.obj []) = Js.str "Medium" :=
  ⟨field_resolution_characterisation.2.2.2.1 (Js.obj [("prompt", Js.str "Define RAG")]) 1
      rfl rfl rfl rfl,
    field_resolution_characterisation.2.2.2.2.1 (Js.obj []) 0 rfl rfl rfl rfl,
    field_resolution_characterisation.2.2.2.2.2.2.2.2.1 (Js.obj []) rfl rfl rfl,
    field_resolution_characterisation.2.2.2.2.2.2.2.2.2.2.2 (Js.obj []) rfl rfl⟩

/-- Claim C9: for every action that actually starts (upload with a
selected file, query with a non-empty trimmed query, quiz generation with
a non-empty topic, mock-test generation), and for both the success and
the failure outcome, the `loading` flag is false when the handler
completes — every handler clears it in its `finally` (and the shared
error helper clears it too). -/
theorem loading_always_cleared :
    (∀ (st : AppState) (oc : Except String String), jsTrim st.query ≠ "" →
      (handleQuerySubmit st oc).loading = false)
  ∧ (∀ (st : FrontState) (oc : Except String String), jsTrim st.query ≠ "" →
      (handleQuerySubmitF st oc).loading = false)
  ∧ (∀ (st : AppState) (oc : Except String Js), jsTrim st.mockTopic ≠ "" →
      (handleTestSubmit st oc).loading = false)
  ∧ (∀ (st : FrontState) (oc : Except String Js), jsTrim st.mockTopic ≠ "" →
      (handleTestSubmitF st oc).loading = false)
  ∧ (∀ (st : MockState) (oc : Except String Js),
      (handleMockTestSubmit st oc).loading = false)
  ∧ (∀ (st : AppState) (f : String) (oc : Except String String), st.selectedFile = some f →
      (handleFileUpload st oc).loading = false) := by
  refine ⟨?_, ?_, ?_, ?_, ?_, ?_⟩
  · intro st oc h
    cases oc <;> simp [handleQuerySubmit, h, resolveQuerySuccess, resolveQueryFailure]
  · intro st oc h
    cases oc <;> simp [handleQuerySubmitF, h]
  · intro st oc h
    cases oc <;> simp [handleTestSubmit, h]
  · intro st oc h
    cases oc with
    | error detail => simp [handleTestSubmitF, h]
    | ok d =>
      cases hd : frontendQuestionsE d <;> simp [handleTestSubmitF, h, hd]
  · intro st oc
    cases oc <;> simp [handleMockTestSubmit]
  · intro st f oc h
    cases oc <;> simp [handleFileUpload, h]

/-- Witness for C9 at concrete inputs, covering success and failure
outcomes across the handlers. -/
theorem loading_always_cleared_witness :
    (handleQuerySubmit { initialAppState with query := "q" } (.ok "ans")).loading = false ∧
    (handleQuerySubmit { initialAppState with query := "q" } (.error "down")).loading = false ∧
    (handleQuerySubmitF sampleFrontState (.error "down")).loading = false ∧
    (handleTestSubmit { initialAppState with mockTopic := "t" } (.ok online3)).loading = false ∧
    (handleTestSubmitF sampleFrontState (.ok (Js.arr []))).loading = false ∧
    (handleMockTestSubmit sampleMockState (.error "down")).loading = false ∧
    (handleFileUpload { initialAppState with selectedFile := some "b.pdf" }
      (.ok "Saved")).loading = false :=
  ⟨loading_always_cleared.1 _ _ (by decide),
    loading_always_cleared.1 _ _ (by decide),
    loading_always_cleared.2.1 _ _ (by decide),
    loading_always_cleared.2.2.1 _ _ (by decide),
    loading_always_cleared.2.2.2.1 _ _ (by decide),
    loading_always_cleared.2.2.2.2.1 _ _,
    loading_always_cleared.2.2.2.2.2 _ "b.pdf" _ rfl⟩

/-- Claim C10: whenever quiz generation fails with a transport error (so
the request was actually sent: validation passed), the stored quiz result
is reset — `part_000` and `part_001` store the error-titled result whose
`questions` field is the empty array, and the frontend variant stores the
empty array itself — so a failed regeneration never leaves the previous
quiz's questions as the current result. -/
theorem quiz_error_resets_result :
    (∀ (st : AppState) (detail : String), jsTrim st.mockTopic ≠ "" →
      (handleTestSubmit st (.error detail)).mockResult = some generationErrorResult)
  ∧ (∀ (st : FrontState) (detail : String), jsTrim st.mockTopic ≠ "" →
      (handleTestSubmitF st (.error detail)).mockResult = some (Js.arr []))
  ∧ (∀ (st : MockState) (detail : String),
      (handleMockTestSubmit st (.error detail)).mockResult = some generationErrorResult)
  ∧ generationErrorResult.getField "questions" = Js.arr [] := by
  refine ⟨?_, ?_, ?_, rfl⟩
  · intro st detail h
    simp [handleTestSubmit, h]
  · intro st detail h
    simp [handleTestSubmitF, h]
  · intro st detail
    simp [handleMockTestSubmit]

/-- Witness for C10 at concrete inputs: the previous quiz result is
replaced by the empty one on failure. -/
theorem quiz_error_resets_result_witness :
    (handleTestSubmit { initialAppState with mockTopic := "t", mockResult := some online3 }
      (.error "down")).mockResult = some generationErrorResult ∧
    (handleTestSubmitF { sampleFrontState with mockResult := some online3 }
      (.error "down")).mockResult = some (Js.arr []) ∧
    (handleMockTestSubmit { sampleMockState with mockResult := some online3 }
      (.error "down")).mockResult = some generationErrorResult :=
  ⟨quiz_error_resets_result.1 _ "down" (by decide),
    quiz_error_resets_result.2.1 _ "down" (by decide),
    quiz_error_resets_result.2.2.1 _ "down"⟩
